import Mathlib

/-!
Verification of the pikachun CDC engine's specification against a shallow
embedding of its Go source (internal/canal and internal/service).
-/

namespace Pikachun

/-- Value of one decoded row cell (Go `interface{}`); `null` models the Go
`nil` interface value that `convertRowToRowData` tests with `value == nil`. -/
inductive GoValue where
  | null
  | int (n : Int)
  | str (s : String)
  deriving DecidableEq

/-- `Position` from internal/canal (meta_manager / task types): binlog file
name, offset and optional GTID set (`GTIDSet string`, "" meaning unset is
modelled as the string itself). -/
structure Position where
  name : String
  pos : Nat
  gtidSet : String := ""
  deriving DecidableEq

/-- `EventType` constants INSERT / UPDATE / DELETE. -/
inductive EventType where
  | insert
  | update
  | delete
  deriving DecidableEq

/-- `Column` of a delivered row (name, type tag, value, is_null). -/
structure Column where
  name : String
  type : String
  value : GoValue
  isNull : Bool
  deriving DecidableEq

/-- `RowData`: ordered list of columns. -/
structure RowData where
  columns : List Column
  deriving DecidableEq

/-- `Event`: the logical row-change event delivered to the sink. -/
structure Event where
  id : String
  schema : String
  table : String
  eventType : EventType
  timestamp : Nat
  position : Position
  beforeData : Option RowData := none
  afterData : Option RowData := none
  deriving DecidableEq

/-- `ColumnInfo` of the slave's table-schema cache. -/
structure ColumnInfo where
  name : String
  type : String
  nullable : Bool
  isPK : Bool
  deriving DecidableEq

/-- `TableSchema` of the slave's table-schema cache. -/
structure TableSchema where
  schema : String
  table : String
  columns : List ColumnInfo
  deriving DecidableEq

/-- `MySQLBinlogSlave.getColumnTypeName`: MySQL column type byte to name. -/
def getColumnTypeName (colType : Nat) : String :=
  match colType with
  | 1 => "tinyint"
  | 2 => "smallint"
  | 3 => "int"
  | 8 => "bigint"
  | 4 => "float"
  | 5 => "double"
  | 246 => "decimal"
  | 253 => "varchar"
  | 254 => "varchar"
  | 12 => "datetime"
  | 10 => "date"
  | 11 => "time"
  | 7 => "timestamp"
  | _ => "unknown_" ++ toString colType

/-- Cache-miss branch of `MySQLBinlogSlave.getTableSchema`: builds a
`TableSchema` from the TableMap event's column type bytes, with fabricated
column names `col_<i>`. -/
def mkTableSchema (schema table : String) (columnTypes : List Nat) : TableSchema :=
  { schema := schema
    table := table
    columns := columnTypes.enum.map (fun p =>
      { name := "col_" ++ toString p.1
        type := getColumnTypeName p.2
        nullable := true
        isPK := false }) }

/-- `MySQLBinlogSlave.convertRowToRowData`: one `Column` per schema column;
cell `i` takes `row[i]` when present (null flag from `value == nil`), and a
nil value with `isNull = true` when the row is shorter than the schema. -/
def convertRowToRowData (ts : TableSchema) (row : List GoValue) : RowData :=
  { columns := ts.columns.enum.map (fun p =>
      match row.get? p.1 with
      | some v => { name := p.2.name, type := p.2.type, value := v, isNull := v == GoValue.null }
      | none => { name := p.2.name, type := p.2.type, value := GoValue.null, isNull := true }) }

/-- Binlog event header fields used by the slave (timestamp, type byte,
log_pos). `logPos` is the u32 end-of-event position from the 19-byte header. -/
structure EventHeader where
  timestamp : Nat
  eventType : Nat
  logPos : Nat
  deriving DecidableEq

/-- `MySQLBinlogSlave.createCanalEvent`: builds one logical event for row
index `rowIndex` of a RowsEvent. `curName` is the slave's current binlog
file name (`m.binlogPos.Name`); `gtid` is `m.gtidSet` rendered, if any.
For UPDATE, only an even row index with a successor row gets before+after
data; every other update row yields an event with neither. -/
def createCanalEvent (h : EventHeader) (curName : String) (gtid : Option String)
    (ts : TableSchema) (et : EventType) (row : List GoValue) (rowIndex : Nat)
    (allRows : List (List GoValue)) : Event :=
  let base : Event :=
    { id := "mysql-binlog-" ++ toString h.logPos ++ "-" ++ toString h.timestamp
          ++ "-" ++ toString rowIndex
      schema := ts.schema
      table := ts.table
      eventType := et
      timestamp := h.timestamp
      position := { name := curName, pos := h.logPos, gtidSet := gtid.getD "" } }
  match et with
  | .insert => { base with afterData := some (convertRowToRowData ts row) }
  | .delete => { base with beforeData := some (convertRowToRowData ts row) }
  | .update =>
    if rowIndex % 2 == 0 && rowIndex + 1 < allRows.length then
      { base with
          beforeData := some (convertRowToRowData ts row)
          afterData := some (convertRowToRowData ts (allRows.getD (rowIndex + 1) [])) }
    else base

/-- Binlog event type bytes for RowsEvents (WriteRows v1/v2, UpdateRows
v1/v2, DeleteRows v1/v2), as matched by `handleRowsEvent`. -/
def rowsEventTypeOf (headerEventType : Nat) : Option EventType :=
  match headerEventType with
  | 23 => some .insert
  | 30 => some .insert
  | 24 => some .update
  | 31 => some .update
  | 25 => some .delete
  | 32 => some .delete
  | _ => none

/-- The per-row loop of `MySQLBinlogSlave.handleRowsEvent`: one
`createCanalEvent` per element of `e.Rows`, each sent to the sink in order
(the list models the sequence of `SendEvent` calls when the sink accepts
every event). -/
def rowsEventToEvents (h : EventHeader) (curName : String) (gtid : Option String)
    (ts : TableSchema) (et : EventType) (rows : List (List GoValue)) : List Event :=
  (List.range rows.length).map (fun i =>
    createCanalEvent h curName gtid ts et (rows.getD i []) i rows)

/-- `MySQLBinlogSlave.handleRowsEvent` up to the send loop: the watch-table
filter (skip when a non-empty watch list does not contain `schema.table`),
the header-type dispatch, and the event-type filter, then the row loop. -/
def handleRowsEventModel (watchTables : List String) (eventTypes : List EventType)
    (h : EventHeader) (curName : String) (gtid : Option String)
    (schema table : String) (columnTypes : List Nat)
    (rows : List (List GoValue)) : List Event :=
  let tableKey := schema ++ "." ++ table
  if watchTables.length > 0 && !(watchTables.contains tableKey) then []
  else
    match rowsEventTypeOf h.eventType with
    | none => []
    | some et =>
      if eventTypes.contains et then
        rowsEventToEvents h curName gtid (mkTableSchema schema table columnTypes) et rows
      else []

/-! ### Event sink (internal/canal/event_sink.go) -/

/-- Association-list lookup modelling a Go map read `m[k]`. -/
def mapGet {β : Type} (l : List (String × β)) (k : String) : Option β :=
  (l.find? (fun p => p.1 == k)).map Prod.snd

/-- Association-list update modelling a Go map assignment `m[k] = v`
(extensionally: the key is bound to `v`, every other key keeps its value). -/
def mapSet {β : Type} (l : List (String × β)) (k : String) (v : β) : List (String × β) :=
  (k, v) :: l.filter (fun p => !(p.1 == k))

/-- A registered `EventHandler` reference: its `GetName()` string, plus an
identity tag distinguishing distinct handler objects that share a name. -/
structure EventHandlerRef where
  name : String
  hid : Nat
  deriving DecidableEq

/-- The sink's handler table `handlers map[string]map[string]EventHandler`,
keyed by `schema.table` then by handler name. -/
abbrev HandlerMap := List (String × List (String × EventHandlerRef))

/-- `DefaultEventSink.Subscribe`: creates the inner map for `schema.table`
when absent, binds `handler.GetName()` to the handler, and always returns
success (`true` models the `nil` error). -/
def subscribe (m : HandlerMap) (schema table : String) (h : EventHandlerRef) :
    HandlerMap × Bool :=
  let key := schema ++ "." ++ table
  let inner := (mapGet m key).getD []
  (mapSet m key (mapSet inner h.name h), true)

/-- Handlers currently registered for `(schema, table)` (the set copied under
the read lock by `handleEvent`). -/
def handlersFor (m : HandlerMap) (schema table : String) : List (String × EventHandlerRef) :=
  (mapGet m (schema ++ "." ++ table)).getD []

/-- One observable step of the sink's dispatch: a handler invocation for the
event at queue index `eventIdx` begins, or it completes (handler returned,
or its 30-second context expired and it returned on cancellation). -/
inductive DispatchStep where
  | invokeStart (eventIdx : Nat) (handlerName : String)
  | invokeDone (eventIdx : Nat) (handlerName : String)
  deriving DecidableEq

/-- Queue index of the event a dispatch step belongs to. -/
def DispatchStep.eventIdx : DispatchStep → Nat
  | .invokeStart i _ => i
  | .invokeDone i _ => i

/-- Trace of `DefaultEventSink.handleEvent` for the event at queue index
`i`: all matching handlers are started (concurrently; the listed order is
one arbitrary interleaving) and `wg.Wait()` joins every one of them before
`handleEvent` returns, so all completions precede anything that follows. -/
def handleEventTrace (m : HandlerMap) (i : Nat) (e : Event) : List DispatchStep :=
  let hs := handlersFor m e.schema e.table
  hs.map (fun p => DispatchStep.invokeStart i p.1)
    ++ hs.map (fun p => DispatchStep.invokeDone i p.1)

/-- Trace of `DefaultEventSink.processEvents`: the single consumer goroutine
dequeues the buffered events in order and runs `handleEvent` to completion
on each before dequeuing the next. -/
def processEventsTrace (m : HandlerMap) (events : List Event) : List DispatchStep :=
  events.enum.flatMap (fun p => handleEventTrace m p.1 p.2)

/-! ### Position advance and stream processing (canal/mysql_binlog_slave.go,
shipped concatenated inside internal/service/task_service.go) -/

/-- `replication.ROTATE_EVENT` type byte. -/
def rotateEventType : Nat := 4

/-- Decoded body of a binlog event, as far as the slave inspects it. -/
inductive BinlogEventBody where
  | rotate (nextLogName : String) (position : Nat)
  | rows (schema table : String) (columnTypes : List Nat) (rows : List (List GoValue))
  | other
  deriving DecidableEq

/-- A fetched binlog event: 19-byte header plus decoded body. -/
structure BinlogEvent where
  header : EventHeader
  body : BinlogEventBody
  deriving DecidableEq

/-- `MySQLBinlogSlave.updatePosition`: the offset is set to the header's
`log_pos`; a Rotate event then overwrites the file name with `NextLogName`
and the offset with the rotate payload's u64 position cast to u32. -/
def updatePosition (pos : Position) (ev : BinlogEvent) : Position :=
  let p1 : Position := { pos with pos := ev.header.logPos }
  if ev.header.eventType == rotateEventType then
    match ev.body with
    | .rotate nm rp => { p1 with name := nm, pos := rp % 4294967296 }
    | _ => p1
  else p1

/-- The send loop inside `handleRowsEvent`: events are offered to the sink
in order; `sinkAccepts k` tells whether the `k`-th `SendEvent` call of this
rows event succeeds; the first failure makes `handleRowsEvent` return the
error, so later events are not offered. Returns (send calls made, events
the sink accepted, whether a send failed). -/
def sendLoop (sinkAccepts : Nat → Bool) : List Event → Nat → Nat × List Event × Bool
  | [], k => (k, [], false)
  | e :: es, k =>
    if sinkAccepts k then
      let r := sendLoop sinkAccepts es (k + 1)
      (r.1, e :: r.2.1, r.2.2)
    else (k + 1, [], true)

/-- Outcome of one iteration of the `processBinlogStream` loop body for a
fetched event: `handleBinlogEvent` runs (its error is logged and swallowed)
and then `updatePosition` runs unconditionally. `markedFailed` records
whether this path ever escalates the instance to FAILED (it never does). -/
structure StreamStepResult where
  newPos : Position
  sendAttempts : Nat
  sentEvents : List Event
  sendFailed : Bool
  markedFailed : Bool
  deriving DecidableEq

/-- One iteration of the `processBinlogStream` loop: dispatch the event to
`handleBinlogEvent` (for a RowsEvent: filter, build events, send loop; the
returned error is only logged), then `updatePosition`. -/
def processStreamEvent (watchTables : List String) (eventTypes : List EventType)
    (pos : Position) (gtid : Option String) (ev : BinlogEvent)
    (sinkAccepts : Nat → Bool) : StreamStepResult :=
  match ev.body with
  | .rows schema table columnTypes rows =>
    let evs := handleRowsEventModel watchTables eventTypes ev.header pos.name gtid
      schema table columnTypes rows
    let r := sendLoop sinkAccepts evs 0
    { newPos := updatePosition pos ev
      sendAttempts := r.1
      sentEvents := r.2.1
      sendFailed := r.2.2
      markedFailed := false }
  | _ =>
    { newPos := updatePosition pos ev
      sendAttempts := 0
      sentEvents := []
      sendFailed := false
      markedFailed := false }

/-! ### Meta store (internal/canal/meta_manager.go) -/

/-- Mapping from instance id to position (the manager's in-memory `cache`
and the `binlog_positions` storage table share this shape). -/
abbrev PosTable := List (String × Position)

/-- State of a `DBMetaManager`: the write-through cache and the durable
`binlog_positions` rows. -/
structure MetaState where
  cache : PosTable
  stored : PosTable
  deriving DecidableEq

/-- `DBMetaManager.SavePosition`: the cache entry is updated FIRST; then the
storage upsert runs, whose outcome is modelled by `storageOk`. On storage
failure the error is returned, storage is unchanged, and the already-made
cache update stays in place. -/
def savePosition (st : MetaState) (storageOk : Bool) (instanceID : String)
    (pos : Position) : MetaState × Except String Unit :=
  let cache1 := mapSet st.cache instanceID pos
  if storageOk then
    ({ cache := cache1, stored := mapSet st.stored instanceID pos }, Except.ok ())
  else
    ({ st with cache := cache1 }, Except.error "failed to save binlog position")

/-- `DBMetaManager.LoadPosition` (storage reads assumed reachable): cache
hit returns the cached position; otherwise the stored row is returned and
cached; an absent row yields the default `{"", 4}` without error. -/
def loadPosition (st : MetaState) (instanceID : String) : Position × MetaState :=
  match mapGet st.cache instanceID with
  | some p => (p, st)
  | none =>
    match mapGet st.stored instanceID with
    | some p => (p, { st with cache := mapSet st.cache instanceID p })
    | none => ({ name := "", pos := 4, gtidSet := "" }, st)

/-! ### Instance and meta-key wiring (canal/mysql_canal_instance.go,
mysql_binlog_slave.go, service/enhanced_canal_service.go) -/

/-- `MySQLConfig` fields used when building a slave. -/
structure MySQLConfig where
  host : String
  port : Nat
  username : String
  password : String
  database : String
  serverID : Nat
  deriving DecidableEq

/-- The instance id string built inside `NewMySQLBinlogSlaveWithMeta`:
`fmt.Sprintf("mysql-slave-%s-%d-%d", host, port, serverID)`. -/
def slaveInstanceID (cfg : MySQLConfig) : String :=
  "mysql-slave-" ++ cfg.host ++ "-" ++ toString cfg.port ++ "-" ++ toString cfg.serverID

/-- The slave as far as meta-key wiring is concerned: its config, the
instance id it was given at construction, and its current position. -/
structure SlaveModel where
  config : MySQLConfig
  instanceID : String
  binlogPos : Position
  deriving DecidableEq

/-- `NewMySQLBinlogSlaveWithMeta`: stores the sprintf'd instance id and the
initial position `mysql-bin.000001:4`. -/
def newMySQLBinlogSlaveWithMeta (cfg : MySQLConfig) : SlaveModel :=
  { config := cfg
    instanceID := slaveInstanceID cfg
    binlogPos := { name := "mysql-bin.000001", pos := 4, gtidSet := "" } }

/-- `MySQLBinlogSlave.getCurrentPosition` with a meta manager present:
restores the position loaded under the slave's OWN `instanceID`. -/
def getCurrentPosition (s : SlaveModel) (st : MetaState) : SlaveModel × MetaState :=
  let r := loadPosition st s.instanceID
  ({ s with binlogPos := r.1 }, r.2)

/-- A `MySQLCanalInstance`: the id handed in by the supervisor plus the
slave it builds from the global canal config. -/
structure CanalInstanceModel where
  id : String
  slave : SlaveModel
  deriving DecidableEq

/-- `NewMySQLCanalInstance`: keeps the given id and creates the slave from
the config; the id is NOT forwarded to the slave. -/
def newMySQLCanalInstance (id : String) (cfg : MySQLConfig) : CanalInstanceModel :=
  { id := id, slave := newMySQLBinlogSlaveWithMeta cfg }

/-- The supervisor's instance key `fmt.Sprintf("task-%d", task.ID)`. -/
def taskInstanceKey (taskId : Nat) : String :=
  "task-" ++ toString taskId

/-! ### Service supervisor (internal/service/enhanced_canal_service.go) -/

/-- One created canal instance, by identity and owning task. -/
structure CanalInstanceRec where
  iid : Nat
  taskId : Nat
  deriving DecidableEq

/-- Supervisor state: the `instances` sync.Map (key to instance identity),
the log of all instances ever created, the set of currently running
instance identities, and a fresh-identity counter. -/
structure SupervisorState where
  instances : List (String × Nat)
  created : List CanalInstanceRec
  running : List Nat
  nextId : Nat
  deriving DecidableEq

/-- `EnhancedCanalService.CreateTask` (happy path): build a fresh instance,
subscribe handlers, START it, then `instances.Store(instanceID, instance)`.
There is no existence check: a previous instance under the same key is
overwritten in the map and keeps running. -/
def createTask (s : SupervisorState) (taskId : Nat) : SupervisorState :=
  let nid := s.nextId
  { instances := mapSet s.instances (taskInstanceKey taskId) nid
    created := s.created ++ [{ iid := nid, taskId := taskId }]
    running := nid :: s.running
    nextId := nid + 1 }

/-- `EnhancedCanalService.DeleteTask`: if the key is mapped, stop that
instance and remove the map entry; otherwise no-op. -/
def deleteTask (s : SupervisorState) (taskId : Nat) : SupervisorState :=
  let key := taskInstanceKey taskId
  match mapGet s.instances key with
  | some iid =>
    { s with
        running := s.running.erase iid
        instances := s.instances.filter (fun p => !(p.1 == key)) }
  | none => s

/-- Number of running instances that were created for `taskId`. -/
def runningCountForTask (s : SupervisorState) (taskId : Nat) : Nat :=
  (s.created.filter (fun c => c.taskId == taskId && s.running.contains c.iid)).length

/-- Supervisor states reachable from the empty service by CreateTask and
DeleteTask. -/
inductive SupReachable : SupervisorState → Prop where
  | init : SupReachable { instances := [], created := [], running := [], nextId := 0 }
  | create (s : SupervisorState) (tid : Nat) :
      SupReachable s → SupReachable (createTask s tid)
  | delete (s : SupervisorState) (tid : Nat) :
      SupReachable s → SupReachable (deleteTask s tid)

/-! ### Webhook handler (internal/canal/webhook_handler.go, shipped
concatenated inside internal/config/config.go) -/

/-- Outcome of one HTTP POST attempt by `sendEvents`. -/
inductive HttpOutcome where
  | transportError
  | status (code : Nat)
  deriving DecidableEq

/-- `WebhookHandler.sendEvents` succeeds iff the transport succeeded and the
status code is inside 2xx (`resp.StatusCode < 200 || >= 300` is an error). -/
def sendEventsOk (o : HttpOutcome) : Bool :=
  match o with
  | .transportError => false
  | .status c => 200 ≤ c && c < 300

/-- Observable outcome of `sendEventsWithRetry` for one batch: attempts
made, whether a send succeeded, the deltas applied to the atomic counters
`success_count` and `error_count`, and the backoff sleeps performed (in
units of `retry_interval`-free absolute durations). -/
structure RetryResult where
  attemptsMade : Nat
  succeeded : Bool
  successDelta : Nat
  errorDelta : Nat
  backoffs : List Nat
  deriving DecidableEq

/-- The `for attempt := 0; attempt <= h.maxRetries; attempt++` loop of
`WebhookHandler.sendEventsWithRetry`: before every attempt after the first,
sleep `attempt * retryInterval`; a failed `sendEvents` bumps `errorCount`
and continues; a success bumps `successCount` by the batch size and
returns. `fuel` counts the attempts still allowed. -/
def sendRetryGo (outcome : Nat → HttpOutcome) (interval nEvents : Nat) :
    Nat → Nat → Nat → List Nat → RetryResult
  | 0, attempt, errors, backoffs =>
    { attemptsMade := attempt
      succeeded := false
      successDelta := 0
      errorDelta := errors
      backoffs := backoffs.reverse }
  | fuel + 1, attempt, errors, backoffs =>
    let backoffs1 := if attempt > 0 then attempt * interval :: backoffs else backoffs
    if sendEventsOk (outcome attempt) then
      { attemptsMade := attempt + 1
        succeeded := true
        successDelta := nEvents
        errorDelta := errors
        backoffs := backoffs1.reverse }
    else sendRetryGo outcome interval nEvents fuel (attempt + 1) (errors + 1) backoffs1

/-- `WebhookHandler.sendEventsWithRetry` on a batch of `nEvents` events,
with per-attempt outcomes `outcome`; when every attempt fails the batch is
dropped (the function returns normally and nothing is re-queued). -/
def sendEventsWithRetry (outcome : Nat → HttpOutcome) (maxRetries interval nEvents : Nat) :
    RetryResult :=
  sendRetryGo outcome interval nEvents (maxRetries + 1) 0 0 []

/-! ### Database handler (canal/database_handler.go, shipped concatenated
inside internal/config/config.go) -/

/-- JSON rendering of a Go string (escaping elided; the inputs used in the
theorems below need none). -/
def goStringQuote (s : String) : String := "\"" ++ s ++ "\""

/-- JSON rendering of a row cell value as `encoding/json` produces it. -/
def goValueToJson (v : GoValue) : String :=
  match v with
  | .null => "null"
  | .int n => toString n
  | .str s => goStringQuote s

/-- JSON rendering of one `Column` per its struct tags (`name`, `type`,
`value`, `is_null`; the `updated,omitempty` flag is never set by this slave
and is therefore always omitted). -/
def columnToJson (c : Column) : String :=
  "\x7b\"name\":" ++ goStringQuote c.name
    ++ ",\"type\":" ++ goStringQuote c.type
    ++ ",\"value\":" ++ goValueToJson c.value
    ++ ",\"is_null\":" ++ (if c.isNull then "true" else "false") ++ "\x7d"

/-- JSON rendering of a `RowData` (`json.Marshal(event.AfterData)`). -/
def rowDataToJson (rd : RowData) : String :=
  "\x7b\"columns\":[" ++ String.intercalate "," (rd.columns.map columnToJson) ++ "]\x7d"

/-- Observable outcome of `DatabaseHandler.Handle`: whether
`CreateEventLog` was called, the `data` string passed to it, and the
handler's returned error. -/
structure DbHandleResult where
  storageCalled : Bool
  dataJson : String
  result : Except String Unit

/-- `DatabaseHandler.Handle`: when storage is disabled the event is
accepted without a storage call; otherwise `data` is the JSON encoding of
`event.AfterData` when present and the empty string when it is nil, and the
single `CreateEventLog` call's error (modelled by `sinkResult`) is returned
as-is, with no retry. -/
def databaseHandlerHandle (enabled : Bool) (event : Event)
    (sinkResult : Except String Unit) : DbHandleResult :=
  if !enabled then
    { storageCalled := false, dataJson := "", result := Except.ok () }
  else
    let data :=
      match event.afterData with
      | some rd => rowDataToJson rd
      | none => ""
    { storageCalled := true, dataJson := data, result := sinkResult }

/-! ### Shared helper lemmas -/

/-- Reading back the key just written by a Go map assignment. -/
theorem mapGet_mapSet_self {β : Type} (l : List (String × β)) (k : String) (v : β) :
    mapGet (mapSet l k v) k = some v := by
  simp [mapGet, mapSet, List.find?]

/-- Reading a key from an association list headed by that key. -/
theorem mapGet_cons_self {β : Type} (l : List (String × β)) (k : String) (v : β) :
    mapGet ((k, v) :: l) k = some v := by
  simp [mapGet, List.find?]

/-! ### C1 -/

/-- C1: for every UPDATE RowsEvent the spec requires exactly ONE logical
Update event per (before, after) row pair, carrying both rows with equal
column length, and no event with neither row. Evaluating the slave's rows
handling at a single-pair UPDATE RowsEvent (one int column, rows
`[[1],[2]]`) shows the loop sends TWO Update events: the first carries both
rows (1 column each), the second carries neither row. -/
theorem C1_update_rows_bug_eval :
    (handleRowsEventModel [] [.insert, .update, .delete]
      { timestamp := 1700000000, eventType := 31, logPos := 500 }
      "mysql-bin.000001" none "test" "users" [3]
      [[GoValue.int 1], [GoValue.int 2]]).map (fun e =>
        (e.eventType == EventType.update, e.beforeData.isSome, e.afterData.isSome,
         (e.beforeData.getD { columns := [] }).columns.length,
         (e.afterData.getD { columns := [] }).columns.length))
    = [(true, true, true, 1, 1), (true, false, false, 0, 0)] := by decide

/-! ### C2 -/

/-- C2 counterexample: starting from the empty supervisor and creating task
7 twice, the second `CreateTask` runs while the instance key `task-7` is
already mapped (to instance 0), yet afterwards TWO instances created for
task 7 are running (the overwritten one is never stopped). -/
theorem C2_counterexample :
    mapGet (createTask
        { instances := [], created := [], running := [], nextId := 0 } 7).instances
      (taskInstanceKey 7) = some 0 ∧
    runningCountForTask
      (createTask (createTask
        { instances := [], created := [], running := [], nextId := 0 } 7) 7) 7 = 2 := by
  decide

/-- All instances ever created by a reachable supervisor have identities
below the fresh-identity counter. -/
theorem sup_created_lt (s : SupervisorState) (h : SupReachable s) :
    ∀ c ∈ s.created, c.iid < s.nextId := by
  induction h with
  | init => simp
  | create s tid hs ih =>
    intro c hc
    simp only [createTask, List.mem_append, List.mem_singleton] at hc
    rcases hc with hc | hc
    · exact Nat.lt_succ_of_lt (ih c hc)
    · subst hc; exact Nat.lt_succ_self _
  | delete s tid hs ih =>
    intro c hc
    rcases hm : mapGet s.instances (taskInstanceKey tid) with _ | iid <;>
      simp only [deleteTask, hm] at hc ⊢ <;> exact ih c hc

/-- In every reachable supervisor state the instances map binds each key at
most once. -/
theorem sup_key_count (s : SupervisorState) (h : SupReachable s) (key : String) :
    (s.instances.filter (fun p => p.1 == key)).length ≤ 1 := by
  induction h with
  | init => simp
  | create s tid hs ih =>
    simp only [createTask, mapSet]
    by_cases hk : taskInstanceKey tid = key
    · subst hk
      simp [List.filter_filter]
    · rw [List.filter_cons]
      have hne : ((taskInstanceKey tid, s.nextId).1 == key) = false := by
        simp [hk]
      simp only [hne, Bool.false_eq_true, if_false]
      calc (List.filter (fun p => p.1 == key)
              (List.filter (fun p => !(p.1 == taskInstanceKey tid)) s.instances)).length
          ≤ (List.filter (fun p => p.1 == key) s.instances).length :=
            ((List.filter_sublist _).filter _).length_le
        _ ≤ 1 := ih
  | delete s tid hs ih =>
    rcases hm : mapGet s.instances (taskInstanceKey tid) with _ | iid <;>
      simp only [deleteTask, hm]
    · exact ih
    · calc (List.filter (fun p => p.1 == key)
              (List.filter (fun p => !(p.1 == taskInstanceKey tid)) s.instances)).length
          ≤ (List.filter (fun p => p.1 == key) s.instances).length :=
            ((List.filter_sublist _).filter _).length_le
        _ ≤ 1 := ih

/-- C2 (amended): in every reachable supervisor state the instances map
holds at most one entry per key, but `CreateTask` performs no existence
check: it always starts one more instance for the task, so creating a task
whose instance already exists leaves the previous instance running (merely
overwriting its map entry), i.e. the running count for that task id grows
by one on every create. -/
theorem C2_amended_supervisor (s : SupervisorState) (hs : SupReachable s) :
    (∀ key, (s.instances.filter (fun p => p.1 == key)).length ≤ 1) ∧
    (∀ tid, runningCountForTask (createTask s tid) tid
      = runningCountForTask s tid + 1) := by
  refine ⟨sup_key_count s hs, ?_⟩
  intro tid
  unfold runningCountForTask createTask
  simp only [List.filter_append, List.length_append]
  have hold : List.filter
      (fun (c : CanalInstanceRec) =>
        c.taskId == tid && (s.nextId :: s.running).contains c.iid) s.created
      = List.filter
        (fun (c : CanalInstanceRec) => c.taskId == tid && s.running.contains c.iid)
        s.created := by
    refine List.filter_congr ?_
    intro c hc
    have hlt := sup_created_lt s hs c hc
    have hne : c.iid ≠ s.nextId := Nat.ne_of_lt hlt
    simp [List.contains_cons, hne]
  rw [hold]
  simp

/-- Witness for the amended C2 theorem at the initial supervisor state. -/
theorem C2_amended_supervisor_witness :
    ((SupervisorState.mk [] [] [] 0).instances.filter
      (fun p => p.1 == "task-1")).length ≤ 1 ∧
    runningCountForTask
        (createTask { instances := [], created := [], running := [], nextId := 0 } 7) 7
      = runningCountForTask
          { instances := [], created := [], running := [], nextId := 0 } 7 + 1 :=
  ⟨(C2_amended_supervisor _ SupReachable.init).1 "task-1",
   (C2_amended_supervisor _ SupReachable.init).2 7⟩

/-! ### C3 -/

/-- C3 counterexample: a WriteRows event (header log_pos 200) arriving at
position 100 with the sink timing out on every send. The loop makes exactly
ONE send attempt (no retry), never marks the instance FAILED, and the
position IS advanced to 200 past the dropped event — contradicting "the
position is NOT advanced and the pump retries the same event up to 3 times
before escalating to instance FAILED". -/
theorem C3_counterexample :
    (processStreamEvent [] [.insert, .update, .delete]
      { name := "mysql-bin.000001", pos := 100, gtidSet := "" } none
      { header := { timestamp := 1700000000, eventType := 30, logPos := 200 },
        body := .rows "test" "users" [3] [[GoValue.int 1]] }
      (fun _ => false)).newPos.pos = 200 ∧
    (processStreamEvent [] [.insert, .update, .delete]
      { name := "mysql-bin.000001", pos := 100, gtidSet := "" } none
      { header := { timestamp := 1700000000, eventType := 30, logPos := 200 },
        body := .rows "test" "users" [3] [[GoValue.int 1]] }
      (fun _ => false)).sendAttempts = 1 ∧
    (processStreamEvent [] [.insert, .update, .delete]
      { name := "mysql-bin.000001", pos := 100, gtidSet := "" } none
      { header := { timestamp := 1700000000, eventType := 30, logPos := 200 },
        body := .rows "test" "users" [3] [[GoValue.int 1]] }
      (fun _ => false)).markedFailed = false := by
  decide

/-- Each event of a rows event is offered to the sink at most once: the
number of `SendEvent` calls never exceeds the number of events built. -/
theorem sendLoop_attempts_le (sinkAccepts : Nat → Bool) (evs : List Event) (k : Nat) :
    (sendLoop sinkAccepts evs k).1 ≤ k + evs.length := by
  induction evs generalizing k with
  | nil => simp [sendLoop]
  | cons e es ih =>
    have hk := ih (k + 1)
    by_cases h : sinkAccepts k <;> simp only [sendLoop, h, List.length_cons] <;>
      simp <;> omega

/-- C3 (amended): when the sink's send times out, `handleRowsEvent` returns
the error, `processBinlogStream` merely logs it, the instance is never
escalated to FAILED on this path, each built event is offered at most once
(no retry), and the position IS advanced to the header's log_pos. -/
theorem C3_amended_backpressure (watchTables : List String)
    (eventTypes : List EventType) (pos : Position) (gtid : Option String)
    (header : EventHeader) (schema table : String) (columnTypes : List Nat)
    (rows : List (List GoValue)) (sinkAccepts : Nat → Bool)
    (hnr : header.eventType ≠ rotateEventType) :
    (processStreamEvent watchTables eventTypes pos gtid
        { header := header, body := .rows schema table columnTypes rows }
        sinkAccepts).newPos = { pos with pos := header.logPos } ∧
    (processStreamEvent watchTables eventTypes pos gtid
        { header := header, body := .rows schema table columnTypes rows }
        sinkAccepts).markedFailed = false ∧
    (processStreamEvent watchTables eventTypes pos gtid
        { header := header, body := .rows schema table columnTypes rows }
        sinkAccepts).sendAttempts ≤
      (handleRowsEventModel watchTables eventTypes header pos.name gtid
        schema table columnTypes rows).length := by
  refine ⟨?_, rfl, ?_⟩
  · simp [processStreamEvent, updatePosition, hnr]
  · simpa using sendLoop_attempts_le sinkAccepts _ 0

/-- Witness for the amended C3 theorem at the counterexample's input. -/
theorem C3_amended_backpressure_witness :
    (processStreamEvent [] [.insert, .update, .delete]
        { name := "mysql-bin.000001", pos := 100, gtidSet := "" } none
        { header := { timestamp := 1700000000, eventType := 30, logPos := 200 },
          body := .rows "test" "users" [3] [[GoValue.int 1]] }
        (fun _ => false)).newPos
      = { name := "mysql-bin.000001", pos := 200, gtidSet := "" } ∧
    (processStreamEvent [] [.insert, .update, .delete]
        { name := "mysql-bin.000001", pos := 100, gtidSet := "" } none
        { header := { timestamp := 1700000000, eventType := 30, logPos := 200 },
          body := .rows "test" "users" [3] [[GoValue.int 1]] }
        (fun _ => false)).markedFailed = false ∧
    (processStreamEvent [] [.insert, .update, .delete]
        { name := "mysql-bin.000001", pos := 100, gtidSet := "" } none
        { header := { timestamp := 1700000000, eventType := 30, logPos := 200 },
          body := .rows "test" "users" [3] [[GoValue.int 1]] }
        (fun _ => false)).sendAttempts ≤
      (handleRowsEventModel [] [.insert, .update, .delete]
        { timestamp := 1700000000, eventType := 30, logPos := 200 }
        "mysql-bin.000001" none "test" "users" [3] [[GoValue.int 1]]).length :=
  C3_amended_backpressure [] [.insert, .update, .delete]
    { name := "mysql-bin.000001", pos := 100, gtidSet := "" } none
    { timestamp := 1700000000, eventType := 30, logPos := 200 }
    "test" "users" [3] [[GoValue.int 1]] (fun _ => false) (by decide)

/-! ### C4 -/

/-- C4 counterexample: for task 1 under the default canal config the
supervisor's instance key is `task-1`, but the slave that loads/saves the
replication position was constructed with meta key
`mysql-slave-127.0.0.1-3307-1001`, which is not `task-1`. -/
theorem C4_counterexample :
    (newMySQLCanalInstance (taskInstanceKey 1)
      { host := "127.0.0.1", port := 3307, username := "root",
        password := "lidi10", database := "", serverID := 1001 }).slave.instanceID
      = "mysql-slave-127.0.0.1-3307-1001" ∧
    (newMySQLCanalInstance (taskInstanceKey 1)
      { host := "127.0.0.1", port := 3307, username := "root",
        password := "lidi10", database := "", serverID := 1001 }).slave.instanceID
      ≠ taskInstanceKey 1 := by
  decide

/-- The slave's meta key never coincides with any supervisor task key: the
two sprintf formats have distinct fixed prefixes. -/
theorem slave_key_ne_task_key (cfg : MySQLConfig) (tid : Nat) :
    slaveInstanceID cfg ≠ taskInstanceKey tid := by
  intro h
  have h2 := congrArg String.data h
  simp only [slaveInstanceID, taskInstanceKey, String.data_append] at h2
  simp at h2

/-- C4 (amended): the canal instance built for a task carries the
supervisor id `task-<id>`, but its slave loads and saves the replication
position under `mysql-slave-<host>-<port>-<server_id>`, a key that differs
from `task-<id>` for every task id and config. -/
theorem C4_amended_meta_key (cfg : MySQLConfig) (tid : Nat) :
    (newMySQLCanalInstance (taskInstanceKey tid) cfg).slave.instanceID
      = slaveInstanceID cfg ∧
    (newMySQLCanalInstance (taskInstanceKey tid) cfg).slave.instanceID
      ≠ taskInstanceKey tid :=
  ⟨rfl, slave_key_ne_task_key cfg tid⟩

/-! ### C5 -/

/-- C5 counterexample: the cache holds position 100 for instance `i`; a
save of position 200 whose storage write fails returns the error, yet the
cache now holds 200 — the cached position was mutated by the failed save. -/
theorem C5_counterexample :
    (savePosition
      { cache := [("i", { name := "mysql-bin.000001", pos := 100, gtidSet := "" })],
        stored := [("i", { name := "mysql-bin.000001", pos := 100, gtidSet := "" })] }
      false "i" { name := "mysql-bin.000001", pos := 200, gtidSet := "" }).2
      = Except.error "failed to save binlog position" ∧
    mapGet (savePosition
      { cache := [("i", { name := "mysql-bin.000001", pos := 100, gtidSet := "" })],
        stored := [("i", { name := "mysql-bin.000001", pos := 100, gtidSet := "" })] }
      false "i" { name := "mysql-bin.000001", pos := 200, gtidSet := "" }).1.cache "i"
      = some { name := "mysql-bin.000001", pos := 200, gtidSet := "" } ∧
    mapGet (savePosition
      { cache := [("i", { name := "mysql-bin.000001", pos := 100, gtidSet := "" })],
        stored := [("i", { name := "mysql-bin.000001", pos := 100, gtidSet := "" })] }
      false "i" { name := "mysql-bin.000001", pos := 200, gtidSet := "" }).1.cache "i"
      ≠ some { name := "mysql-bin.000001", pos := 100, gtidSet := "" } :=
  ⟨rfl, by decide, by decide⟩

/-- C5 (amended): every storage error is returned to the caller and storage
itself stays unchanged on failure, but `SavePosition` updates the cache
BEFORE the storage write, so after a failed save the cache holds the new
position; on storage success cache and storage both hold it. -/
theorem C5_amended_save_position (st : MetaState) (instanceID : String) (pos : Position) :
    (savePosition st false instanceID pos).2
      = Except.error "failed to save binlog position" ∧
    mapGet (savePosition st false instanceID pos).1.cache instanceID = some pos ∧
    (savePosition st false instanceID pos).1.stored = st.stored ∧
    (savePosition st true instanceID pos).2 = Except.ok () ∧
    mapGet (savePosition st true instanceID pos).1.cache instanceID = some pos ∧
    mapGet (savePosition st true instanceID pos).1.stored instanceID = some pos := by
  refine ⟨rfl, ?_, rfl, rfl, ?_, ?_⟩ <;> simp [savePosition, mapGet_mapSet_self]

/-! ### C6 -/

/-- C6: `updatePosition` advances the position exactly as specified — a
Rotate event (type byte 4) sets the file to the payload's NextLogName and
the offset to the payload's Position (a u32 value), and every other event
sets the offset to the header's log_pos, leaving the file unchanged. -/
theorem C6_position_advance (pos : Position) (ev : BinlogEvent) :
    (∀ nm rp, ev.header.eventType = rotateEventType → ev.body = .rotate nm rp →
      rp < 4294967296 → updatePosition pos ev = { pos with name := nm, pos := rp }) ∧
    (ev.header.eventType ≠ rotateEventType →
      updatePosition pos ev = { pos with pos := ev.header.logPos }) := by
  constructor
  · intro nm rp h1 h2 h3
    simp [updatePosition, h1, h2, Nat.mod_eq_of_lt h3]
  · intro h
    simp [updatePosition, h]

/-- Witness for C6 at a concrete Rotate event and a concrete TableMap
event (type byte 19). -/
theorem C6_position_advance_witness :
    updatePosition { name := "mysql-bin.000001", pos := 12000, gtidSet := "" }
        { header := { timestamp := 0, eventType := 4, logPos := 0 },
          body := .rotate "mysql-bin.000002" 4 }
      = { name := "mysql-bin.000002", pos := 4, gtidSet := "" } ∧
    updatePosition { name := "mysql-bin.000001", pos := 12000, gtidSet := "" }
        { header := { timestamp := 0, eventType := 19, logPos := 12345 },
          body := .other }
      = { name := "mysql-bin.000001", pos := 12345, gtidSet := "" } :=
  ⟨(C6_position_advance
      { name := "mysql-bin.000001", pos := 12000, gtidSet := "" }
      { header := { timestamp := 0, eventType := 4, logPos := 0 },
        body := .rotate "mysql-bin.000002" 4 }).1
      "mysql-bin.000002" 4 rfl rfl (by decide),
   (C6_position_advance
      { name := "mysql-bin.000001", pos := 12000, gtidSet := "" }
      { header := { timestamp := 0, eventType := 19, logPos := 12345 },
        body := .other }).2 (by decide)⟩

/-! ### C7 -/

/-- C7: subscribing twice under `(schema, table)` with handlers of the same
name succeeds on the second call and leaves exactly one registration with
that name (the later handler), without changing the total number of
handlers registered under the key relative to the first subscribe. -/
theorem C7_idempotent_subscribe (m : HandlerMap) (schema table name : String)
    (hid1 hid2 : Nat) :
    (subscribe (subscribe m schema table { name := name, hid := hid1 }).1
        schema table { name := name, hid := hid2 }).2 = true ∧
    (handlersFor (subscribe (subscribe m schema table { name := name, hid := hid1 }).1
        schema table { name := name, hid := hid2 }).1 schema table).filter
      (fun p => p.1 == name) = [(name, { name := name, hid := hid2 })] ∧
    (handlersFor (subscribe (subscribe m schema table { name := name, hid := hid1 }).1
        schema table { name := name, hid := hid2 }).1 schema table).length =
    (handlersFor (subscribe m schema table { name := name, hid := hid1 }).1
        schema table).length := by
  refine ⟨rfl, ?_, ?_⟩ <;>
    simp [subscribe, handlersFor, mapSet, mapGet_cons_self, List.filter_filter]

/-! ### C8 -/

/-- C8: with the constructor defaults (max_retries 3, retry_interval 1 s)
the webhook send loop makes at most 4 attempts (the first send plus up to 3
retries), sleeps `attempt x retry_interval` before each retry, adds the
batch size to success_count exactly when some attempt succeeded, and adds 1
to error_count per failed attempt (so 4 when every attempt failed, after
which the batch is dropped and nothing is propagated to the stream). -/
theorem C8_webhook_retry (outcome : Nat → HttpOutcome) (n : Nat) :
    (sendEventsWithRetry outcome 3 1 n).attemptsMade ≤ 4 ∧
    (sendEventsWithRetry outcome 3 1 n).backoffs =
      (List.range ((sendEventsWithRetry outcome 3 1 n).attemptsMade - 1)).map
        (fun i => (i + 1) * 1) ∧
    (sendEventsWithRetry outcome 3 1 n).successDelta =
      (if (sendEventsWithRetry outcome 3 1 n).succeeded then n else 0) ∧
    (sendEventsWithRetry outcome 3 1 n).errorDelta =
      (if (sendEventsWithRetry outcome 3 1 n).succeeded
        then (sendEventsWithRetry outcome 3 1 n).attemptsMade - 1 else 4) := by
  by_cases h0 : sendEventsOk (outcome 0) <;>
    by_cases h1 : sendEventsOk (outcome 1) <;>
      by_cases h2 : sendEventsOk (outcome 2) <;>
        by_cases h3 : sendEventsOk (outcome 3) <;>
          simp [sendEventsWithRetry, sendRetryGo, h0, h1, h2, h3, List.range_succ]

/-! ### C9 -/

/-- C9 counterexample: a DELETE event produced by the slave (whose
before row is the single int column `1`) reaches the database handler with
storage enabled; the `data` passed to CreateEventLog is the empty string,
not the JSON encoding of the before row. -/
theorem C9_counterexample :
    (databaseHandlerHandle true
      (createCanalEvent { timestamp := 1700000000, eventType := 32, logPos := 700 }
        "mysql-bin.000001" none
        (mkTableSchema "test" "users" [3]) .delete [GoValue.int 1] 0 [[GoValue.int 1]])
      (Except.ok ())).dataJson = "" ∧
    rowDataToJson (convertRowToRowData (mkTableSchema "test" "users" [3]) [GoValue.int 1])
      ≠ "" := by
  decide

/-- C9 (amended): with storage enabled, the `data_json` handed to
create_event_log is the JSON encoding of the after row when one is present
and the empty string otherwise — for DELETE events (which carry only a
before row) it is always empty, the before row is never encoded — and the
injected sink's error is returned as-is, without retry. -/
theorem C9_amended_database_handler (h : EventHeader) (curName : String)
    (gtid : Option String) (ts : TableSchema) (row : List GoValue) (rowIndex : Nat)
    (allRows : List (List GoValue)) (sinkRes : Except String Unit) :
    databaseHandlerHandle true
        (createCanalEvent h curName gtid ts .delete row rowIndex allRows) sinkRes
      = { storageCalled := true, dataJson := "", result := sinkRes } ∧
    databaseHandlerHandle true
        (createCanalEvent h curName gtid ts .insert row rowIndex allRows) sinkRes
      = { storageCalled := true,
          dataJson := rowDataToJson (convertRowToRowData ts row),
          result := sinkRes } := by
  constructor <;> simp [databaseHandlerHandle, createCanalEvent]

/-! ### C10 -/

/-- Every step of one event's dispatch trace carries that event's queue
index. -/
theorem handleEventTrace_idx (m : HandlerMap) (i : Nat) (e : Event)
    (x : DispatchStep) (hx : x ∈ handleEventTrace m i e) : x.eventIdx = i := by
  simp only [handleEventTrace, List.mem_append, List.mem_map] at hx
  rcases hx with ⟨p, hp, rfl⟩ | ⟨p, hp, rfl⟩ <;> rfl

/-- Dispatch traces of events enumerated from index `n` are ordered by
event index. -/
theorem trace_aux (m : HandlerMap) (es : List Event) (n : Nat) :
    ((List.enumFrom n es).flatMap (fun p => handleEventTrace m p.1 p.2)).Pairwise
      (fun a b => a.eventIdx ≤ b.eventIdx) := by
  induction es generalizing n with
  | nil => simp
  | cons e es ih =>
    rw [List.enumFrom_cons, List.flatMap_cons]
    refine List.pairwise_append.mpr ⟨?_, ih (n + 1), ?_⟩
    · refine List.pairwise_of_forall_mem_list ?_
      intro a ha b hb
      rw [handleEventTrace_idx m n e a ha, handleEventTrace_idx m n e b hb]
    · intro a ha b hb
      rw [handleEventTrace_idx m n e a ha]
      rcases List.mem_flatMap.mp hb with ⟨p, hp, hbp⟩
      have h1 : n + 1 ≤ p.1 := (List.mem_enumFrom ((Prod.mk.eta (p := p)) ▸ hp)).1
      have h2 := handleEventTrace_idx m p.1 p.2 b hbp
      omega

/-- C10: the sink's single consumer dispatches strictly one event at a time
across ALL tables — in the dispatch trace of any queued event list, every
step (start or completion of a handler invocation) belonging to an earlier
event precedes every step belonging to a later event; in particular no
invocation for a later event begins before all invocations for an earlier
event have completed, whatever the events' tables. -/
theorem C10_sequential_dispatch (m : HandlerMap) (events : List Event) :
    (processEventsTrace m events).Pairwise (fun a b => a.eventIdx ≤ b.eventIdx) := by
  have h : events.enum = List.enumFrom 0 events := rfl
  rw [processEventsTrace, h]
  exact trace_aux m events 0

end Pikachun
